import Mathlib

/-!
Verification development for the Ghost_IDE backend core
(`src/backend/app`): the execution orchestrator
(`services/code_execution.py`), the hook manager
(`services/hook_manager.py`), the WebSocket connection manager
(`services/websocket_manager.py`), the language registry
(`services/language_manager.py`) and the security input validator
(`middleware/security.py`).

External effects (the Docker subprocess, the native subprocess runs, the
assistant network call, the Python `re` engine on the configurable rule
patterns, wall-clock readings) are modelled as explicit environment
records supplied to the embedded functions; Python exceptions are
modelled with an explicit `Except` so that try/except structure is
visible.  Presentation-only fields of the source (templates, examples,
icons, Monaco ids, docker image names) and fields no theorem touches
(issue line numbers, the `session_subscribers` side table) are omitted;
every control-flow branch of the modelled functions is kept.
-/

namespace GhostIDE

/-! ## Basic string helpers modelling Python primitives -/

/-- Python whitespace class `\s` (the ASCII part, which is all the
source ever feeds it): space, tab, newline, carriage return, vertical
tab, form feed. -/
def isPyWs (c : Char) : Bool :=
  c = ' ' || c = '\t' || c = '\n' || c = '\r' || c = '\x0b' || c = '\x0c'

/-- Case-insensitive character comparison, as under `re.IGNORECASE`. -/
def ciEq (a b : Char) : Bool := a.toLower = b.toLower

/-- Does `w` occur literally (case-insensitively) as a prefix of `cs`?
Returns the remaining characters on success. -/
def ciDropWord : List Char → List Char → Option (List Char)
  | [], cs => some cs
  | _ :: _, [] => none
  | w :: ws, c :: cs => if ciEq w c then ciDropWord ws cs else none

/-- Consume one-or-more whitespace characters (`\s+`). -/
def dropWs1 : List Char → Option (List Char)
  | [] => none
  | c :: cs =>
    if isPyWs c then
      some (cs.dropWhile isPyWs)
    else none

/-- Match the regex fragment `w₀\s+w₁\s+…\s+wₙ` starting exactly here. -/
def wordSeqHere : List String → List Char → Bool
  | [], _ => true
  | [w], cs => (ciDropWord w.toList cs).isSome
  | w :: w2 :: ws, cs =>
    match ciDropWord w.toList cs with
    | none => false
    | some rest =>
      match dropWs1 rest with
      | none => false
      | some rest2 => wordSeqHere (w2 :: ws) rest2

/-- `re.search` for a pattern of literal words separated by `\s+`
(with `re.IGNORECASE`): does it match at any position? -/
def wordSeqSearch (ws : List String) : List Char → Bool
  | [] => wordSeqHere ws []
  | c :: cs => wordSeqHere ws (c :: cs) || wordSeqSearch ws cs

/-- Python `needle in haystack` substring test (case-sensitive). -/
def pyContainsAux (needle : List Char) : List Char → Bool
  | [] => needle.isEmpty
  | c :: cs => (ciDropWordCS needle (c :: cs)).isSome || pyContainsAux needle cs
where
  /-- case-sensitive literal prefix match -/
  ciDropWordCS : List Char → List Char → Option (List Char)
    | [], cs => some cs
    | _ :: _, [] => none
    | w :: ws, c :: cs => if w = c then ciDropWordCS ws cs else none

/-- Python `needle in haystack` on `String`s. -/
def pyContains (haystack needle : String) : Bool :=
  pyContainsAux needle.toList haystack.toList

/-- Python `str.strip()`: drop leading and trailing whitespace. -/
def pyStrip (s : String) : String :=
  ⟨((s.toList.dropWhile isPyWs).reverse.dropWhile isPyWs).reverse⟩

/-! ## Data model (`app/models/schemas.py`) -/

/-- `schemas.LanguageType`: the request-side language enum.  (The
registry in `language_manager.py` declares three further members,
`typescript`/`go`/`rust`, but gives them no configuration and no code
path ever constructs them, so they are not modelled.)  Both Python
enums are `str` subclasses, so their members compare equal to their
string values; `value` below is that string. -/
inductive LanguageType where
  | python
  | javascript
  | java
  | cpp
  | c
deriving DecidableEq, Repr

/-- The `value` of a `LanguageType` member. -/
def LanguageType.value : LanguageType → String
  | .python => "python"
  | .javascript => "javascript"
  | .java => "java"
  | .cpp => "cpp"
  | .c => "c"

/-- `schemas.ExecutionRequest`.  `timeout` carries the Pydantic bound
`1 ≤ timeout ≤ 300` as a separate predicate (`ExecutionRequest.Valid`)
rather than in the type. -/
structure ExecutionRequest where
  code : String
  language : LanguageType
  input : Option String
  timeout : Nat
  session_id : String
deriving Repr, DecidableEq

/-- The Pydantic field constraints on `ExecutionRequest`
(`min_length=1` on `code`, `ge=1, le=300` on `timeout`). -/
def ExecutionRequest.Valid (r : ExecutionRequest) : Prop :=
  r.code ≠ "" ∧ 1 ≤ r.timeout ∧ r.timeout ≤ 300

/-- `schemas.ExecutionResult`.  `execution_time` is the wall-clock
reading the code takes at construction (a float in the source,
modelled as a natural supplied by the environment); `timed_out`
defaults to `False` in the Pydantic model, so a construction site that
does not pass it leaves it `false`. -/
structure ExecutionResult where
  stdout : String
  stderr : String
  exit_code : Int
  execution_time : Nat
  timed_out : Bool := false
deriving Repr, DecidableEq

/-! ## Language registry (`app/services/language_manager.py`) -/

/-- `language_manager.CompilerConfig` (only the fields the execution
path reads: `timeout`, `memory_limit`, `cpu_quota`). -/
structure CompilerConfig where
  timeout : Nat
  memory_limit : String
  cpu_quota : Nat
deriving Repr, DecidableEq

/-- `language_manager.ValidationRule`: a regex pattern, the message
reported when it matches, and a severity (`error`/`warning`/`info`). -/
structure ValidationRule where
  pattern : String
  message : String
  severity : String
deriving Repr, DecidableEq

/-- `language_manager.ErrorPattern`: regex plus capture-group indices
used by `parse_error_message`. -/
structure ErrorPattern where
  pattern : String
  line_group : Nat
  message_group : Nat
  type_group : Option Nat
deriving Repr, DecidableEq

/-- `language_manager.LanguageConfig`, restricted to the fields the
modelled code paths read (name, compiler configuration, validation
rules, error patterns).  Presentation fields (extension, icon, color,
templates, examples, docker image names, file patterns, MIME types)
are omitted: no modelled branch reads them. -/
structure LanguageConfig where
  name : String
  compiler_config : CompilerConfig
  validation_rules : List ValidationRule
  error_patterns : List ErrorPattern
deriving Repr, DecidableEq

/-- The Python registry entry (`_initialize_languages`, `python`). -/
def pythonConfig : LanguageConfig :=
  { name := "Python"
    compiler_config := { timeout := 30, memory_limit := "128m", cpu_quota := 50000 }
    validation_rules :=
      [ { pattern := "eval\\s*\\(",
          message := "eval() function is dangerous and not allowed",
          severity := "error" },
        { pattern := "\\bexec\\s*\\(",
          message := "exec() function is dangerous and not allowed",
          severity := "error" } ]
    error_patterns :=
      [ { pattern := "File \".*\", line (\\d+).*\\n.*\\n(\\w+Error: .+)",
          line_group := 1, message_group := 2, type_group := some 2 },
        { pattern := "line (\\d+).*\\n.*\\n(SyntaxError: .+)",
          line_group := 1, message_group := 2, type_group := some 2 } ] }

/-- The JavaScript registry entry. -/
def javascriptConfig : LanguageConfig :=
  { name := "JavaScript"
    compiler_config := { timeout := 30, memory_limit := "128m", cpu_quota := 50000 }
    validation_rules :=
      [ { pattern := "eval\\s*\\(",
          message := "eval() function is dangerous and not allowed",
          severity := "error" } ]
    error_patterns :=
      [ { pattern := "(\\w+Error): (.+)\\n.*at.*:(\\d+):",
          line_group := 3, message_group := 2, type_group := some 1 },
        { pattern := "SyntaxError: (.+)\\n.*at.*:(\\d+):",
          line_group := 2, message_group := 1, type_group := none } ] }

/-- The Java registry entry. -/
def javaConfig : LanguageConfig :=
  { name := "Java"
    compiler_config := { timeout := 45, memory_limit := "256m", cpu_quota := 75000 }
    validation_rules :=
      [ { pattern := "import\\s+java\\.io\\.File",
          message := "File I/O operations are restricted for security reasons",
          severity := "warning" },
        { pattern := "import\\s+java\\.lang\\.Runtime",
          message := "Runtime operations are not allowed for security reasons",
          severity := "error" },
        { pattern := "import\\s+java\\.lang\\.ProcessBuilder",
          message := "Process operations are not allowed for security reasons",
          severity := "error" },
        { pattern := "System\\.exit\\s*\\(",
          message := "System.exit() is not allowed in this environment",
          severity := "error" },
        { pattern := "class\\s+(?!Main\\b)\\w+\\s*\\\x7b",
          message := "Please use \x27Main\x27 as your class name for proper execution",
          severity := "warning" } ]
    error_patterns :=
      [ { pattern := "Main\\.java:(\\d+): error: (.+)",
          line_group := 1, message_group := 2, type_group := none },
        { pattern := "Exception in thread \"main\" (\\w+): (.+)\\n\\s+at Main\\.main\\(Main\\.java:(\\d+)\\)",
          line_group := 3, message_group := 2, type_group := some 1 } ] }

/-- The C++ registry entry. -/
def cppConfig : LanguageConfig :=
  { name := "C++"
    compiler_config := { timeout := 45, memory_limit := "256m", cpu_quota := 75000 }
    validation_rules :=
      [ { pattern := "\\bsystem\\s*\\(",
          message := "System calls are not allowed for security reasons",
          severity := "error" },
        { pattern := "exit\\s*\\(",
          message := "exit() function is not recommended in this environment",
          severity := "warning" } ]
    error_patterns :=
      [ { pattern := "code\\.cpp:(\\d+):.*error: (.+)",
          line_group := 1, message_group := 2, type_group := none },
        { pattern := "code\\.cpp:(\\d+):.*warning: (.+)",
          line_group := 1, message_group := 2, type_group := none } ] }

/-- `LanguageManager.get_language_config`: the `_languages` table holds
entries for python, javascript, java and cpp only; any other key
(notably `c`) yields `None`. -/
def get_language_config : LanguageType → Option LanguageConfig
  | .python => some pythonConfig
  | .javascript => some javascriptConfig
  | .java => some javaConfig
  | .cpp => some cppConfig
  | .c => none

/-! ## Security input validator (`app/middleware/security.py`)

The two module-level `DANGEROUS_PATTERNS` are literal words joined by
`\s+`, so their `re.search` (with `re.IGNORECASE`) is embedded
concretely via `wordSeqSearch`.  The per-language rules use richer
regex features (`\b`, character classes), so those searches are
supplied by a regex oracle `reSearch pattern text` standing for
`re.search(pattern, text) is not None` of the Python `re` engine. -/

/-- `security.DANGEROUS_PATTERNS`: the regex source text paired with
its literal-word reading. -/
def dangerousPatterns : List (String × List String) :=
  [ ("import\\s+ctypes", ["import", "ctypes"]),
    ("from\\s+ctypes\\s+import", ["from", "ctypes", "import"]) ]

/-- `InputValidator._validate_python_code`: the blocked import modules
(each checked with the pattern
`\bimport\s+IMP\b|\bfrom\s+IMP\s+import\b`). -/
def pythonDangerousImports : List String :=
  ["ctypes", "imp", "importlib.__import__"]

/-- The pattern string `security.py` builds for a blocked Python
import. -/
def pyImportPattern (imp : String) : String :=
  "\\bimport\\s+" ++ imp ++ "\\b|\\bfrom\\s+" ++ imp ++ "\\s+import\\b"

/-- `InputValidator._validate_python_code`: the blocked function names
(each checked with the pattern `\bFUNC\s*\(`). -/
def pythonDangerousFuncs : List String :=
  ["exec", "eval", "compile", "__import__"]

/-- The pattern string `security.py` builds for a blocked Python
function call. -/
def pyFuncPattern (f : String) : String :=
  "\\b" ++ f ++ "\\s*\\("

/-- `InputValidator._validate_python_code`. -/
def validate_python_code (reSearch : String → String → Bool) (code : String) :
    Bool × Option String :=
  match pythonDangerousImports.find? (fun imp => reSearch (pyImportPattern imp) code) with
  | some imp =>
    (false, some ("Import of \x27" ++ imp ++ "\x27 module is not allowed"))
  | none =>
    match pythonDangerousFuncs.find? (fun f => reSearch (pyFuncPattern f) code) with
    | some f =>
      (false, some ("Use of \x27" ++ f ++ "\x27 function is not allowed"))
    | none => (true, none)

/-- `InputValidator._validate_compiled_code` (Java, C, C++): the
blocked system-call patterns. -/
def compiledDangerousPatterns : List String :=
  ["\\bsystem\\s*\\(", "\\bexec[vl][pe]*\\s*\\(", "\\bfork\\s*\\("]

/-- `InputValidator._validate_compiled_code`. -/
def validate_compiled_code (reSearch : String → String → Bool) (code : String) :
    Bool × Option String :=
  if compiledDangerousPatterns.any (fun p => reSearch p code) then
    (false, some "Use of dangerous system call is not allowed")
  else (true, none)

/-- `InputValidator._validate_javascript_code`: allows everything. -/
def validate_javascript_code : Bool × Option String := (true, none)

/-- `InputValidator.validate_code`.  `language.lower()` on the `str`
enum is just the member value, which is already lowercase. -/
def input_validator_validate_code (reSearch : String → String → Bool)
    (code : String) (language : LanguageType) : Bool × Option String :=
  if code = "" then (false, some "Code cannot be empty")
  else if code.length > 50000 then
    (false, some "Code exceeds maximum length of 50,000 characters")
  else
    match dangerousPatterns.find? (fun p => wordSeqSearch p.2 code.toList) with
    | some p =>
      (false, some ("Code contains potentially dangerous operations: " ++ p.1))
    | none =>
      match language with
      | .python => validate_python_code reSearch code
      | .javascript => validate_javascript_code
      | .java | .cpp | .c => validate_compiled_code reSearch code

/-! ## Language-manager validation and error parsing -/

/-- One entry of the issue list `LanguageManager.validate_code`
returns.  The source also records the matched line number and the rule
pattern; no modelled consumer reads them (`code_execution.py` reads
only `severity` and `message`), so they are omitted. -/
structure Issue where
  severity : String
  message : String
deriving Repr, DecidableEq

/-- `LanguageManager.validate_code`.  The source runs `re.finditer`
and appends one issue per match of each rule; only whether a rule
matched at all and the order of rules affect any consumer, so the
model records one issue per matching rule. -/
def lm_validate_code (reSearch : String → String → Bool)
    (code : String) (language : LanguageType) : Bool × List Issue :=
  match get_language_config language with
  | none =>
    (false, [{ severity := "error", message := "Unsupported language: " ++ language.value }])
  | some config =>
    if code = "" || pyStrip code = "" then
      (false, [{ severity := "error", message := "Code cannot be empty" }])
    else if code.utf8ByteSize > 100 * 1024 then
      (false, [{ severity := "error", message := "Code is too large (max 100KB)" }])
    else
      let ruleIssues := (config.validation_rules.filter (fun r => reSearch r.pattern code)).map
        (fun r => { severity := r.severity, message := r.message : Issue })
      let issues :=
        if language = .java
            && !(pyContains code "class Main") && !(pyContains code "public class Main") then
          ruleIssues ++
            [{ severity := "error",
               message := "Java code must contain a \x27public class Main\x27 with a main method" }]
        else ruleIssues
      let has_errors := issues.any (fun i => i.severity = "error")
      (!has_errors, issues)

/-- The dictionary `LanguageManager.parse_error_message` returns.  In
the unknown-language branch the source dict has no `formatted` key;
`formatted := none` models the absent key (`parsed.get("formatted")`
then yields `None`). -/
structure ParseOut where
  message : String
  line : Option Int
  type : String
  formatted : Option String
deriving Repr, DecidableEq

/-- Oracle for `re.search(pattern.pattern, out, re.MULTILINE | re.DOTALL)`:
`none` when the pattern does not match, otherwise the capture groups of
the match (`groups i` is `match.group(i)`; `none` stands for a group
lookup that raises). -/
def Matcher : Type := ErrorPattern → String → Option (Nat → Option String)

/-- The body of the `try` block in `parse_error_message` for one
matched pattern.  `none` models the `except (ValueError, IndexError):
continue` branch: a group index out of range or a non-numeric line
group.  All table entries have `line_group ≥ 1` and
`message_group ≥ 1`, so the two Python truthiness tests on the group
indices always take the first branch. -/
def tryPattern (groups : Nat → Option String) (p : ErrorPattern) : Option ParseOut :=
  match groups p.line_group with
  | none => none
  | some lineStr =>
    match lineStr.toInt? with
    | none => none
    | some line_num =>
      match groups p.message_group with
      | none => none
      | some message =>
        let errType? := match p.type_group with
          | none => some "Error"
          | some g => groups g
        match errType? with
        | none => none
        | some error_type =>
          some { message := pyStrip message
                 line := some line_num
                 type := error_type
                 formatted := some <|
                   if line_num ≠ 0 then
                     "Line " ++ toString line_num ++ ": " ++ error_type ++ ": " ++ pyStrip message
                   else error_type ++ ": " ++ pyStrip message }

/-- The pattern loop of `parse_error_message`: first pattern that
matches and parses wins; otherwise the verbatim-ish fallback, which
`strip()`s the raw output. -/
def parsePatterns (matcher : Matcher) (error_output : String) :
    List ErrorPattern → ParseOut
  | [] =>
    { message := pyStrip error_output
      line := none
      type := "Error"
      formatted := some (pyStrip error_output) }
  | p :: ps =>
    match matcher p error_output with
    | none => parsePatterns matcher error_output ps
    | some groups =>
      match tryPattern groups p with
      | none => parsePatterns matcher error_output ps
      | some out => out

/-- `LanguageManager.parse_error_message`. -/
def parse_error_message (matcher : Matcher) (error_output : String)
    (language : LanguageType) : ParseOut :=
  match get_language_config language with
  | none => { message := error_output, line := none, type := "unknown", formatted := none }
  | some config => parsePatterns matcher error_output config.error_patterns

/-! ## Orchestrator-level validation (`CodeExecutionService.validate_code`) -/

/-- `CodeExecutionService.validate_code`: security pre-check first,
then the language manager's rule validation; on rule failure the first
error-severity issue's message is reported. -/
def service_validate_code (reSearch : String → String → Bool)
    (code : String) (language : LanguageType) : Bool × Option String :=
  match input_validator_validate_code reSearch code language with
  | (false, security_error) =>
    (false, some ("Security validation failed: " ++ security_error.getD "None"))
  | (true, _) =>
    match lm_validate_code reSearch code language with
    | (false, issues) =>
      (match issues.filter (fun i => i.severity = "error") with
       | [] => (false, some "Code validation failed")
       | i :: _ => (false, some i.message))
    | (true, _) => (true, none)

/-! ## Execution orchestrator (`app/services/code_execution.py`)

`execute_code` and `_native_execution` are `async` and call external
effects (the hook manager, the Docker CLI subprocess, native
subprocesses).  The model supplies every external outcome in an
`ExecEnv` record and threads Python exceptions through `Except PyExc`,
so that a code path that failed to catch an exception would surface as
an `Except.error` of the embedded function. -/

/-- The Python exceptions distinguished by the handlers in
`code_execution.py`: `subprocess.TimeoutExpired`, `FileNotFoundError`
(each carrying `str(e)`), and every other `Exception`. -/
inductive PyExc where
  | timeoutExpired
  | fileNotFound (msg : String)
  | other (msg : String)
deriving Repr, DecidableEq

/-- `str(e)` of a modelled exception, as interpolated into error
strings.  `timeoutExpired` carries no message: the only site that
stringifies it is the generic `except Exception` arm of
`_native_execution`, which no modelled outcome reaches with that
constructor. -/
def PyExc.str : PyExc → String
  | .timeoutExpired => ""
  | .fileNotFound m => m
  | .other m => m

/-- Outcome of one awaited subprocess run (spawn + `communicate` under
`asyncio.wait_for`): finished with captured output, hit the wait
timeout, or raised. -/
inductive StepOutcome where
  | done (stdout stderr : String) (returncode : Int)
  | timeout
  | raised (e : PyExc)
deriving Repr, DecidableEq

/-- Outcome of the compile subprocess (`javac`/`g++`) in
`_native_execution`: return code and captured stderr, or a raise
(a missing compiler raises `FileNotFoundError`; a compile hanging past
`asyncio.wait_for` raises `asyncio.TimeoutError`, which only the outer
`except Exception` catches and is therefore modelled as
`PyExc.other`). -/
inductive CompileOutcome where
  | done (returncode : Int) (compile_err : String)
  | raised (e : PyExc)
deriving Repr, DecidableEq

/-- All external outcomes one call to `execute_code` can observe. -/
structure ExecEnv where
  /-- oracle for `re.search` on the configurable validation patterns -/
  reSearch : String → String → Bool
  /-- oracle for `re.search` on the error patterns (`parse_error_message`) -/
  matcher : Matcher
  /-- outcome of the `hook_manager.on_run_hook` call -/
  onRunHook : Except PyExc Unit
  /-- outcome of a `hook_manager.on_error_hook` call -/
  onErrorHook : Except PyExc Unit
  /-- outcome of the `subprocess.run(docker_cmd, …)` call: captured
  stdout, stderr and return code, or a raise (`timeoutExpired` when the
  wait expires) -/
  dockerRun : Except PyExc (String × String × Int)
  /-- outcome of the native compile phase (java/cpp) -/
  compileStep : CompileOutcome
  /-- outcome of the native run phase -/
  runStep : StepOutcome
  /-- the wall-clock `(datetime.now() - start_time).total_seconds()`
  reading used wherever the source computes `execution_time` -/
  elapsed : Nat

/-- Which collaborators one `execute_code` call actually invoked. -/
structure Effects where
  /-- `self.validate_code` was called -/
  validationRun : Bool
  /-- the Docker subprocess was dispatched -/
  dockerInvoked : Bool
  /-- `self._native_execution` was dispatched -/
  nativeInvoked : Bool
deriving Repr, DecidableEq

/-- A `try: body except Exception: log` block around a unit-valued
call: the exception is always swallowed. -/
def pyTryIgnore (body : Except PyExc Unit) : Except PyExc Unit :=
  match body with
  | .ok _ => .ok ()
  | .error _ => .ok ()

/-- The `except FileNotFoundError` / `except Exception` pair at the
end of `_native_execution`. -/
def nativeOuterCatch (env : ExecEnv) (req : ExecutionRequest) (e : PyExc) :
    ExecutionResult :=
  match e with
  | .fileNotFound m =>
    { stdout := ""
      stderr := "Runtime not available: " ++ m ++ ". Please ensure " ++
        req.language.value ++ " is installed."
      exit_code := 1
      execution_time := env.elapsed }
  | e =>
    { stdout := ""
      stderr := "Execution error: " ++ e.str
      exit_code := 1
      execution_time := env.elapsed }

/-- The run phase of `_native_execution`: await the user process with
`asyncio.wait_for(…, timeout)`.  On `asyncio.TimeoutError` the process
is killed and the `124`/`timed_out=True` result is built; note the
effective timeout here is `min(request.timeout, 30)` — hard-coded 30,
not the language config's timeout. -/
def nativeRunPhase (env : ExecEnv) (req : ExecutionRequest) (timeout : Nat) :
    ExecutionResult :=
  match env.runStep with
  | .raised e => nativeOuterCatch env req e
  | .timeout =>
    { stdout := ""
      stderr := "Execution timed out after " ++ toString timeout ++ " seconds"
      exit_code := 124
      execution_time := env.elapsed
      timed_out := true }
  | .done stdout stderr returncode =>
    { stdout := stdout
      stderr := stderr
      exit_code := returncode
      execution_time := env.elapsed }

/-- `CodeExecutionService._native_execution`.  Its body is one big
`try` whose `except` arms catch every exception, so the model is a
total function.  The `exec_config` table has entries for python,
javascript, java and cpp; language `c` falls into the unsupported
branch. -/
def native_execution (env : ExecEnv) (req : ExecutionRequest) : ExecutionResult :=
  match req.language with
  | .c =>
    { stdout := "", stderr := "Unsupported language: c", exit_code := 1, execution_time := 0 }
  | .java | .cpp =>
    let timeout := min req.timeout 30
    match env.compileStep with
    | .raised e => nativeOuterCatch env req e
    | .done rc compile_err =>
      if rc ≠ 0 then
        { stdout := ""
          stderr := "Compilation error:\n" ++ compile_err
          exit_code := 1
          execution_time := env.elapsed }
      else nativeRunPhase env req timeout
  | .python | .javascript =>
    nativeRunPhase env req (min req.timeout 30)

/-- The normalize step of the Docker branch: on a nonzero exit with
nonempty stderr, replace stderr by the parsed `formatted` string when
it is present and truthy (non-empty). -/
def normalizeStderr (matcher : Matcher) (language : LanguageType)
    (exit_code : Int) (stderr : String) : String :=
  if exit_code ≠ 0 && stderr ≠ "" then
    match (parse_error_message matcher stderr language).formatted with
    | some f => if f ≠ "" then f else stderr
    | none => stderr
  else stderr

/-- `CodeExecutionService.execute_code`.  `docker_available` is
`self.docker_client` truthiness, fixed at service construction;
`Except.error` would mean an exception escaped the orchestrator. -/
def execute_code (docker_available : Bool) (env : ExecEnv) (req : ExecutionRequest) :
    Except PyExc (ExecutionResult × Effects) := do
  pyTryIgnore env.onRunHook
  if !docker_available then
    let result := native_execution env req
    if result.exit_code ≠ 0 then pyTryIgnore env.onErrorHook else pure ()
    return (result, { validationRun := false, dockerInvoked := false, nativeInvoked := true })
  else
    match service_validate_code env.reSearch req.code req.language with
    | (false, error_msg) =>
      pyTryIgnore env.onErrorHook
      return ({ stdout := ""
                stderr := error_msg.getD ""
                exit_code := 1
                execution_time := 0 },
              { validationRun := true, dockerInvoked := false, nativeInvoked := false })
    | (true, _) =>
      match get_language_config req.language with
      | none =>
        pyTryIgnore env.onErrorHook
        return ({ stdout := ""
                  stderr := "Unsupported language: " ++ req.language.value
                  exit_code := 1
                  execution_time := 0 },
                { validationRun := true, dockerInvoked := false, nativeInvoked := false })
      | some config =>
        let timeout := min req.timeout config.compiler_config.timeout
        match env.dockerRun with
        | .error .timeoutExpired =>
          pyTryIgnore env.onErrorHook
          return ({ stdout := ""
                    stderr := "Execution timed out after " ++ toString timeout ++ " seconds"
                    exit_code := 124
                    execution_time := env.elapsed },
                  { validationRun := true, dockerInvoked := true, nativeInvoked := false })
        | .error (.fileNotFound m) =>
          pyTryIgnore env.onErrorHook
          return ({ stdout := ""
                    stderr := "Container error: " ++ m
                    exit_code := 1
                    execution_time := env.elapsed },
                  { validationRun := true, dockerInvoked := true, nativeInvoked := false })
        | .error (.other m) =>
          pyTryIgnore env.onErrorHook
          return ({ stdout := ""
                    stderr := "Execution error: " ++ m
                    exit_code := 1
                    execution_time := env.elapsed },
                  { validationRun := true, dockerInvoked := true, nativeInvoked := false })
        | .ok (stdout, stderr, exit_code) =>
          let stderr2 := normalizeStderr env.matcher req.language exit_code stderr
          if exit_code ≠ 0 then pyTryIgnore env.onErrorHook else pure ()
          return ({ stdout := stdout
                    stderr := stderr2
                    exit_code := exit_code
                    execution_time := env.elapsed },
                  { validationRun := true, dockerInvoked := true, nativeInvoked := false })

/-! ## Notification fabric (`app/services/websocket_manager.py`)

Connections are opaque transport handles, modelled as naturals.  The
two dictionaries of `ConnectionManager` are modelled as total
functions: `conns` is `active_connections` (an absent key is the empty
list — the source deletes a session's entry exactly when its list
becomes empty, so in every reachable state the two representations
agree), and `sess` is `connection_sessions`.  The `session_subscribers`
side table is written but never read by any modelled operation and is
omitted.  Whether a given transport's `send_text` raises is supplied
by a `fails` oracle. -/

/-- The registry state of `ConnectionManager`. -/
structure ConnState where
  /-- `active_connections : session_id → connection list` -/
  conns : String → List Nat
  /-- `connection_sessions : connection → session_id` -/
  sess : Nat → Option String

/-- The freshly constructed manager: both dictionaries empty. -/
def initConnState : ConnState := ⟨fun _ => [], fun _ => none⟩

/-- `ConnectionManager.connect`: accept the transport (when acceptance
raises, nothing is registered and `False` is returned), then append
the connection to the session's list and record its session. -/
def cm_connect (st : ConnState) (ws : Nat) (session_id : String) (acceptOk : Bool) :
    ConnState × Bool :=
  if !acceptOk then (st, false)
  else
    ({ conns := fun s => if s = session_id then st.conns session_id ++ [ws] else st.conns s
       sess := fun w => if w = ws then some session_id else st.sess w },
     true)

/-- `ConnectionManager.disconnect`: look the connection's session up,
remove the first occurrence of the connection from that session's list
(a no-op when absent, matching the `in` guard), drop the session entry
if the list became empty (automatic here), and delete the connection's
metadata. -/
def cm_disconnect (st : ConnState) (ws : Nat) : ConnState :=
  match st.sess ws with
  | none => st
  | some session_id =>
    { conns := fun s => if s = session_id then (st.conns session_id).erase ws else st.conns s
      sess := fun w => if w = ws then none else st.sess w }

/-- The `for websocket in self.active_connections[session_id]` loop of
`send_to_session`, with CPython list-iterator semantics: the iterator
keeps an index into the *live* list object.  Each step reads the
element at the current index; `send_to_connection` swallows a send
failure internally and calls `disconnect`, which removes the failed
connection from the very list being iterated (so the `except` arm and
the `connections_to_remove` bookkeeping of `send_to_session` are dead
code).  Returns the final registry state and the connections that
actually received the message, in delivery order. -/
def sendLoop (fails : Nat → Bool) (session_id : String) (i : Nat) (st : ConnState)
    (delivered : List Nat) : ConnState × List Nat :=
  if h : i < (st.conns session_id).length then
    if fails ((st.conns session_id).get ⟨i, h⟩) then
      sendLoop fails session_id (i + 1)
        (cm_disconnect st ((st.conns session_id).get ⟨i, h⟩)) delivered
    else
      sendLoop fails session_id (i + 1) st
        (delivered ++ [(st.conns session_id).get ⟨i, h⟩])
  else (st, delivered)
termination_by (st.conns session_id).length - i
decreasing_by
  · have hle : ∀ ws, ((cm_disconnect st ws).conns session_id).length ≤
        (st.conns session_id).length := by
      intro ws
      simp only [cm_disconnect]
      split
      · exact Nat.le_refl _
      · dsimp only
        split
        · next hs =>
          subst hs
          exact (List.erase_sublist _ _).length_le
        · exact Nat.le_refl _
    have hle2 := hle ((st.conns session_id).get ⟨i, h⟩)
    omega
  · omega

/-- `ConnectionManager.send_to_session`: a session with no live
connections is a no-op; otherwise run the delivery loop from index 0.
(The `session_id not in self.active_connections` test is the
empty-list test under the function representation.) -/
def send_to_session (fails : Nat → Bool) (st : ConnState) (session_id : String) :
    ConnState × List Nat :=
  if st.conns session_id = [] then (st, [])
  else sendLoop fails session_id 0 st []

/-- One registry operation, for reachability of `ConnectionManager`
states. -/
inductive ConnOp where
  | connectOp (ws : Nat) (session_id : String) (acceptOk : Bool)
  | disconnectOp (ws : Nat)
deriving Repr, DecidableEq

/-- Apply one operation to the registry. -/
def applyOp (st : ConnState) : ConnOp → ConnState
  | .connectOp ws sid ok => (cm_connect st ws sid ok).1
  | .disconnectOp ws => cm_disconnect st ws

/-- Run a sequence of operations from the freshly constructed
manager. -/
def runOps (ops : List ConnOp) : ConnState :=
  ops.foldl applyOp initConnState

/-- A trace is guarded when every `connect` is issued for a connection
that is not currently registered (the transport-level situation: one
WebSocket object is accepted at most once while open). -/
def guardedFrom (st : ConnState) : List ConnOp → Bool
  | [] => true
  | op :: ops =>
    (match op with
     | .connectOp ws _ _ => (st.sess ws).isNone
     | .disconnectOp _ => true)
    && guardedFrom (applyOp st op) ops

/-- The registry invariant: session membership is consistent with the
`connection_sessions` map, and no session list holds a connection
twice. -/
def ConnInv (st : ConnState) : Prop :=
  (∀ w s, w ∈ st.conns s → st.sess w = some s) ∧ (∀ s, (st.conns s).Nodup)

/-! ## Hook manager (`app/services/hook_manager.py`)

`trigger_hook` is `async` and touches three collaborators: the
assistant (`ghost_ai.react_to_event`, which may raise), the WebSocket
manager (`_send_ai_response` / `_send_hook_error`, which swallow their
own failures), and the registered listeners (each isolated by its own
`try`).  The assistant outcome is supplied as an `Except`; the
construction of the default `AIContext` can also raise (an unknown
language string) and is caught by the same `except`, so it is folded
into that outcome.  Side calls are recorded in an output trace. -/

/-- `ghost_ai.HookEventType`. -/
inductive HookEventType where
  | on_run
  | on_error
  | on_save
deriving DecidableEq, Repr

/-- `HookStatus`. -/
inductive HookStatus where
  | pending
  | processing
  | completed
  | failed
deriving DecidableEq, Repr

/-- `ghost_ai.HookEvent` (its `timestamp` field is the tracked
`started_at` clock reading; `data` is the free-form dict). -/
structure HookEvent where
  event_type : HookEventType
  session_id : String
  data : List (String × String)
deriving Repr, DecidableEq

/-- `hook_manager.HookExecution`.  `started_at`/`completed_at` are the
wall-clock readings supplied to `trigger_hook`. -/
structure HookExecution where
  id : String
  event : HookEvent
  status : HookStatus
  ai_response : Option String
  error : Option String
  started_at : Nat
  completed_at : Option Nat
  execution_time : Option Nat
deriving Repr, DecidableEq

/-- `self.hook_stats`. -/
structure HookStats where
  total_events : Nat
  successful_responses : Nat
  failed_responses : Nat
  events_by_type : HookEventType → Nat

/-- The mutable state of `HookManagerService`.  `executions` is the
`hook_executions` dict; `listeners` is how many listeners are
registered per event type (their code is opaque; each failure is
swallowed, so only the number of calls is observable); `enabled_hooks`
is the per-type enable flag (all `True` at construction). -/
structure HookState where
  executions : String → Option HookExecution
  listeners : HookEventType → Nat
  enabled_hooks : HookEventType → Bool
  stats : HookStats

/-- Observable side calls of one `trigger_hook` invocation. -/
inductive HookOut where
  /-- `await self.ghost_ai.react_to_event(event, context)` -/
  | assistantCall (event : HookEvent)
  /-- `_send_ai_response`: a `GHOST_RESPONSE` WebSocket message -/
  | responseNotif (session_id : String) (response : String)
  /-- `_send_hook_error`: an `ERROR` WebSocket message -/
  | errorNotif (session_id : String) (detail : String)
  /-- one registered listener invoked -/
  | listenerCall (event_type : HookEventType)
deriving Repr, DecidableEq

/-- `HookManagerService.trigger_hook`.  Arguments beyond the state:
`react` is the assistant-call outcome, `execution_id` the generated
id `f"{session_id}_{event_type}_{timestamp}"`, `t0`/`t1` the
`datetime.utcnow()` readings at creation and completion.  Returns the
new state, the returned `Optional[str]`, and the trace of side
calls. -/
def trigger_hook (st : HookState) (react : Except String String)
    (event_type : HookEventType) (session_id : String)
    (data : List (String × String)) (execution_id : String) (t0 t1 : Nat) :
    HookState × Option String × List HookOut :=
  if !(st.enabled_hooks event_type) then (st, none, [])
  else
    let event : HookEvent := { event_type := event_type, session_id := session_id, data := data }
    let execution : HookExecution :=
      { id := execution_id, event := event, status := .pending, ai_response := none,
        error := none, started_at := t0, completed_at := none, execution_time := none }
    let stats1 : HookStats :=
      { st.stats with
        total_events := st.stats.total_events + 1
        events_by_type := fun t =>
          if t = event_type then st.stats.events_by_type t + 1 else st.stats.events_by_type t }
    match react with
    | .ok ai_response =>
      let execution2 := { execution with
        status := .completed, ai_response := some ai_response,
        completed_at := some t1, execution_time := some (t1 - t0) }
      ({ st with
         executions := fun i => if i = execution_id then some execution2 else st.executions i
         stats := { stats1 with successful_responses := stats1.successful_responses + 1 } },
       some ai_response,
       [.assistantCall event, .responseNotif session_id ai_response] ++
         List.replicate (st.listeners event_type) (.listenerCall event_type))
    | .error e =>
      let execution2 := { execution with
        status := .failed, error := some e,
        completed_at := some t1, execution_time := some (t1 - t0) }
      ({ st with
         executions := fun i => if i = execution_id then some execution2 else st.executions i
         stats := { stats1 with failed_responses := stats1.failed_responses + 1 } },
       none,
       [.assistantCall event, .errorNotif session_id e])

/-! ## Concrete instances used by counterexamples and witnesses -/

/-- A regex oracle under which no configurable pattern matches. -/
def falseSearch : String → String → Bool := fun _ _ => false

/-- An error-pattern oracle under which no error pattern matches. -/
def noMatcher : Matcher := fun _ _ => none

/-- A benign environment: no pattern matches, hooks succeed, the
Docker run and the native run both complete instantly with empty
output and exit 0. -/
def baseEnv : ExecEnv :=
  { reSearch := falseSearch
    matcher := noMatcher
    onRunHook := .ok ()
    onErrorHook := .ok ()
    dockerRun := .ok ("", "", 0)
    compileStep := .done 0 ""
    runStep := .done "" "" 0
    elapsed := 0 }

/-- The spec's malicious-pattern scenario: `code = "import ctypes"`. -/
def ctypesReq : ExecutionRequest :=
  { code := "import ctypes", language := .python, input := none,
    timeout := 30, session_id := "s" }

/-- The stderr `validate_code` produces for `"import ctypes"`. -/
def ctypesRejectMsg : String :=
  "Security validation failed: Code contains potentially dangerous operations: import\\s+ctypes"

/-- The spec's timeout scenario: an infinite loop with `timeout=1`. -/
def spinReq : ExecutionRequest :=
  { code := "while True: pass", language := .python, input := none,
    timeout := 1, session_id := "s" }

/-- Environment in which the Docker subprocess hits its wait timeout
(`subprocess.TimeoutExpired`) after 1 second of wall clock. -/
def dockerTimeoutEnv : ExecEnv :=
  { baseEnv with dockerRun := .error .timeoutExpired, elapsed := 1 }

/-- Environment in which the native run phase hits its wait timeout. -/
def nativeTimeoutEnv : ExecEnv :=
  { baseEnv with runStep := .timeout, elapsed := 1 }

/-- A Java request asking for a 60-second budget (the Java config's
own timeout is 45). -/
def javaReq60 : ExecutionRequest :=
  { code := "public class Main \x7b public static void main(String[] a) \x7b while(true)\x7b\x7d \x7d \x7d",
    language := .java, input := none, timeout := 60, session_id := "s" }

/-- A registry with three connections 1, 2, 3 on session `"s"`. -/
def st3 : ConnState :=
  { conns := fun s => if s = "s" then [1, 2, 3] else []
    sess := fun w => if w = 1 || w = 2 || w = 3 then some "s" else none }

/-- A transport-failure oracle: only connection 1 fails on send. -/
def failFirst : Nat → Bool := fun w => w = 1

/-- A hook-manager state with everything enabled, no listeners, no
history, zeroed statistics. -/
def hookSt0 : HookState :=
  { executions := fun _ => none
    listeners := fun _ => 0
    enabled_hooks := fun _ => true
    stats := { total_events := 0, successful_responses := 0, failed_responses := 0,
               events_by_type := fun _ => 0 } }

/-- `hookSt0` with `on_run` disabled (the spec's disabled-hook
scenario). -/
def hookStDisabled : HookState :=
  { hookSt0 with enabled_hooks := fun t => !(t = HookEventType.on_run) }

/-! ## Theorems -/

/-- Both arms of the swallow combinator are `ok`. -/
theorem pyTryIgnore_eq (x : Except PyExc Unit) : pyTryIgnore x = Except.ok () := by
  cases x <;> rfl

/-- Reduction of a bind whose first component is `ok`. -/
theorem ok_bind {α β : Type} (a : α) (f : α → Except PyExc β) :
    Except.ok a >>= f = f a := rfl

/-- C1: for every `ExecutionRequest` and every combination of external
outcomes (hook failures, validation verdicts, Docker subprocess
results or raises, native compile/run results or raises),
`execute_code` returns `ok` with exactly one well-formed
`ExecutionResult`: no exception escapes the orchestrator on any
terminal path (validation failure, unsupported language, timeout,
container error, runtime error, success, native fallback). -/
theorem orchestrator_never_raises (docker_available : Bool) (env : ExecEnv)
    (req : ExecutionRequest) :
    ∃ out, execute_code docker_available env req = Except.ok out := by
  unfold execute_code
  simp only [pyTryIgnore_eq, ok_bind]
  cases docker_available with
  | false =>
    rw [if_pos (by decide : (!false) = true)]
    split <;> exact ⟨_, rfl⟩
  | true =>
    rw [if_neg (by decide : ¬((!true) = true))]
    cases hval : service_validate_code env.reSearch req.code req.language with
    | mk ok msg =>
      cases ok with
      | false => exact ⟨_, rfl⟩
      | true =>
        cases hcfg : get_language_config req.language with
        | none => exact ⟨_, rfl⟩
        | some config =>
          cases hrun : env.dockerRun with
          | error e => cases e <;> exact ⟨_, rfl⟩
          | ok val =>
            obtain ⟨stdout, stderr, exit_code⟩ := val
            dsimp only
            split <;> exact ⟨_, rfl⟩

/-- The fresh manager satisfies the invariant. -/
theorem connInv_init : ConnInv initConnState := by
  constructor <;> intro w <;> simp [initConnState]

/-- `connect` of an unregistered connection preserves the invariant. -/
theorem connInv_connect (st : ConnState) (ws : Nat) (sid : String) (ok : Bool)
    (hinv : ConnInv st) (hfresh : st.sess ws = none) :
    ConnInv (cm_connect st ws sid ok).1 := by
  obtain ⟨hmem, hnd⟩ := hinv
  have hwsnot : ∀ s, ws ∉ st.conns s := by
    intro s hws
    have h := hmem ws s hws
    rw [hfresh] at h
    exact Option.noConfusion h
  cases ok with
  | false => simpa [cm_connect] using ⟨hmem, hnd⟩
  | true =>
    have hcc : (cm_connect st ws sid true).1 =
        ⟨fun s => if s = sid then st.conns sid ++ [ws] else st.conns s,
         fun w => if w = ws then some sid else st.sess w⟩ := rfl
    rw [hcc]
    refine ⟨?_, ?_⟩
    · intro w s hw
      dsimp only at hw ⊢
      by_cases hs : s = sid
      · subst hs
        rw [if_pos rfl] at hw
        rcases List.mem_append.mp hw with hmem1 | hws2
        · have hwne : w ≠ ws := fun h => (hwsnot _ (h ▸ hmem1))
          rw [if_neg hwne]
          exact hmem w _ hmem1
        · have hweq : w = ws := List.mem_singleton.mp hws2
          rw [if_pos hweq]
      · rw [if_neg hs] at hw
        have h := hmem w s hw
        have hwne : w ≠ ws := by
          intro he
          subst he
          exact hwsnot s hw
        rw [if_neg hwne]
        exact h
    · intro s
      dsimp only
      by_cases hs : s = sid
      · subst hs
        rw [if_pos rfl]
        refine (List.nodup_append).mpr ⟨hnd _, List.nodup_singleton ws, ?_⟩
        intro a ha hb
        rw [List.mem_singleton] at hb
        subst hb
        exact hwsnot _ ha
      · rw [if_neg hs]
        exact hnd s

/-- `disconnect` preserves the invariant. -/
theorem connInv_disconnect (st : ConnState) (ws : Nat) (hinv : ConnInv st) :
    ConnInv (cm_disconnect st ws) := by
  obtain ⟨hmem, hnd⟩ := hinv
  cases hws : st.sess ws with
  | none => simpa [cm_disconnect, hws] using ⟨hmem, hnd⟩
  | some sid =>
    refine ⟨?_, ?_⟩
    · intro w s hw
      simp only [cm_disconnect, hws] at hw ⊢
      by_cases hs : s = sid
      · subst hs
        rw [if_pos rfl] at hw
        have h2 := ((hnd _).mem_erase_iff).mp hw
        rw [if_neg h2.1]
        exact hmem w _ h2.2
      · rw [if_neg hs] at hw
        have h := hmem w s hw
        have hwne : w ≠ ws := by
          intro he
          subst he
          rw [hws] at h
          exact hs (Option.some.inj h).symm
        rw [if_neg hwne]
        exact h
    · intro s
      simp only [cm_disconnect, hws]
      by_cases hs : s = sid
      · rw [if_pos hs]
        exact (hnd _).erase ws
      · rw [if_neg hs]
        exact hnd s

/-- Every guarded trace keeps the invariant. -/
theorem connInv_foldl : ∀ (ops : List ConnOp) (st : ConnState),
    guardedFrom st ops = true → ConnInv st → ConnInv (ops.foldl applyOp st) := by
  intro ops
  induction ops with
  | nil => intro st _ h; exact h
  | cons op ops ih =>
    intro st hg hinv
    cases op with
    | connectOp ws sid ok =>
      simp only [guardedFrom, Bool.and_eq_true] at hg
      have hfresh : st.sess ws = none := Option.isNone_iff_eq_none.mp hg.1
      have hstep := connInv_connect st ws sid ok hinv hfresh
      rw [List.foldl_cons]
      exact ih _ hg.2 hstep
    | disconnectOp ws =>
      simp only [guardedFrom, Bool.true_and] at hg
      have hstep := connInv_disconnect st ws hinv
      rw [List.foldl_cons]
      exact ih _ hg hstep


/-- A raise caught at the end of `_native_execution` always yields a
result with `timed_out = false`. -/
theorem nativeOuterCatch_not_timed_out (env : ExecEnv) (req : ExecutionRequest) (e : PyExc) :
    (nativeOuterCatch env req e).timed_out = false := by
  cases e <;> rfl

/-- If the native run phase reports `timed_out`, the result carries the
124 sentinel and empty stdout. -/
theorem nativeRunPhase_timed_out (env : ExecEnv) (req : ExecutionRequest) (t : Nat)
    (h : (nativeRunPhase env req t).timed_out = true) :
    (nativeRunPhase env req t).exit_code = 124 ∧ (nativeRunPhase env req t).stdout = "" := by
  unfold nativeRunPhase at h ⊢
  cases hr : env.runStep with
  | done o e c =>
    rw [hr] at h
    exact absurd h Bool.false_ne_true
  | timeout =>
    exact ⟨rfl, rfl⟩
  | raised e =>
    rw [hr] at h
    dsimp only at h
    rw [nativeOuterCatch_not_timed_out] at h
    exact absurd h Bool.false_ne_true

/-- If `_native_execution` reports `timed_out`, the result carries the
124 sentinel and empty stdout. -/
theorem native_timed_out_shape (env : ExecEnv) (req : ExecutionRequest)
    (h : (native_execution env req).timed_out = true) :
    (native_execution env req).exit_code = 124 ∧ (native_execution env req).stdout = "" := by
  unfold native_execution at h ⊢
  cases hl : req.language <;> rw [hl] at h <;> dsimp only at h ⊢
  case python => exact nativeRunPhase_timed_out env req _ h
  case javascript => exact nativeRunPhase_timed_out env req _ h
  case c => exact absurd h Bool.false_ne_true
  all_goals
    cases hc : env.compileStep <;> rw [hc] at h <;> dsimp only at h ⊢
  case java.raised e =>
    rw [nativeOuterCatch_not_timed_out] at h
    exact absurd h Bool.false_ne_true
  case cpp.raised e =>
    rw [nativeOuterCatch_not_timed_out] at h
    exact absurd h Bool.false_ne_true
  all_goals
    rename_i rc cerr
    by_cases hrc : rc ≠ 0
    · rw [if_pos hrc] at h
      exact absurd h Bool.false_ne_true
    · rw [if_neg hrc] at h ⊢
      exact nativeRunPhase_timed_out env req _ h

/-- C2 counterexample: at the spec's own malicious-pattern input
(`"import ctypes"`, Docker available), `execute_code` produces a
result with `stdout = ""` yet `exit_code = 1`, so the claimed
equivalence `exit_code == 124 ⇔ stdout == ""` is false for a result it
itself produces.  (Independently, the Docker timeout path produces
`exit_code = 124` with `timed_out = false`.) -/
theorem result_equiv_counterexample :
    execute_code true baseEnv ctypesReq =
      Except.ok ({ stdout := "", stderr := ctypesRejectMsg, exit_code := 1,
                   execution_time := 0, timed_out := false },
                 { validationRun := true, dockerInvoked := false, nativeInvoked := false }) ∧
    ¬(((1 : Int) = 124) ↔ (("" : String) = "")) := by
  constructor
  · rfl
  · intro hiff
    exact absurd (hiff.mpr rfl) (by decide)

/-- C2 amended: of the claimed three-way equivalence only the
implication from `timed_out` survives: every result `execute_code`
returns with `timed_out = true` has `exit_code = 124` and
`stdout = ""`.  The converses fail (validation failures have empty
stdout with exit 1; the Docker timeout path sets exit 124 with
`timed_out` left false). -/
theorem timed_out_implies_sentinel (d : Bool) (env : ExecEnv) (req : ExecutionRequest)
    (r : ExecutionResult) (eff : Effects)
    (hok : execute_code d env req = Except.ok (r, eff)) (ht : r.timed_out = true) :
    r.exit_code = 124 ∧ r.stdout = "" := by
  unfold execute_code at hok
  simp only [pyTryIgnore_eq, ok_bind] at hok
  cases d with
  | false =>
    rw [if_pos (by decide : (!false) = true)] at hok
    have hr : native_execution env req = r := by
      split at hok <;>
        exact (Prod.mk.injEq _ _ _ _ ▸ Except.ok.inj hok).1
    rw [← hr] at ht ⊢
    exact native_timed_out_shape env req ht
  | true =>
    rw [if_neg (by decide : ¬((!true) = true))] at hok
    cases hval : service_validate_code env.reSearch req.code req.language with
    | mk ok msg =>
      rw [hval] at hok
      cases ok with
      | false =>
        have hr : _ = r := (Prod.mk.injEq _ _ _ _ ▸ Except.ok.inj hok).1
        rw [← hr] at ht
        exact absurd ht Bool.false_ne_true
      | true =>
        cases hcfg : get_language_config req.language with
        | none =>
          rw [hcfg] at hok
          have hr : _ = r := (Prod.mk.injEq _ _ _ _ ▸ Except.ok.inj hok).1
          rw [← hr] at ht
          exact absurd ht Bool.false_ne_true
        | some config =>
          rw [hcfg] at hok
          cases hrun : env.dockerRun with
          | error e =>
            rw [hrun] at hok
            cases e <;>
            · have hr : _ = r := (Prod.mk.injEq _ _ _ _ ▸ Except.ok.inj hok).1
              rw [← hr] at ht
              exact absurd ht Bool.false_ne_true
          | ok val =>
            obtain ⟨stdout, stderr, exit_code⟩ := val
            rw [hrun] at hok
            dsimp only at hok
            have hr : ({ stdout := stdout,
                         stderr := normalizeStderr env.matcher req.language exit_code stderr,
                         exit_code := exit_code, execution_time := env.elapsed,
                         timed_out := false } : ExecutionResult) = r := by
              split at hok <;>
                exact (Prod.mk.injEq _ _ _ _ ▸ Except.ok.inj hok).1
            rw [← hr] at ht
            exact absurd ht Bool.false_ne_true

/-- C2 witness: a native run that hits the wait timeout yields
`timed_out = true`, and the amended theorem applies to it. -/
theorem timed_out_implies_sentinel_witness :
    ∃ r eff, execute_code false nativeTimeoutEnv spinReq = Except.ok (r, eff) ∧
      r.timed_out = true ∧ r.exit_code = 124 ∧ r.stdout = "" := by
  refine ⟨_, _, rfl, rfl, ?_⟩
  exact timed_out_implies_sentinel false nativeTimeoutEnv spinReq _ _ rfl rfl

/-- C3: evaluation at the failing inputs.  First conjunct: a
Docker-backed run of the spec's timeout scenario (`timeout=1`) does
wait `min(request.timeout, config.timeout)` and produces exit 124,
empty stdout and the timeout stderr — but leaves `timed_out = false`,
where the claim (and the schema's invariant) require `true`.  Second
conjunct: on the native path the effective wait is hard-coded
`min(request.timeout, 30)`, not `min(request.timeout, config.timeout)`
(= 45 for Java), as the stderr of a 60-second Java request shows. -/
theorem docker_timeout_leaves_timed_out_false :
    execute_code true dockerTimeoutEnv spinReq =
      Except.ok ({ stdout := "", stderr := "Execution timed out after 1 seconds",
                   exit_code := 124, execution_time := 1, timed_out := false },
                 { validationRun := true, dockerInvoked := true, nativeInvoked := false }) ∧
    execute_code false nativeTimeoutEnv javaReq60 =
      Except.ok ({ stdout := "", stderr := "Execution timed out after 30 seconds",
                   exit_code := 124, execution_time := 1, timed_out := true },
                 { validationRun := false, dockerInvoked := false, nativeInvoked := true }) := by
  exact ⟨rfl, rfl⟩

/-- C4 counterexample: when no Docker backend is available, a request
whose code fails validation (the spec's `"import ctypes"` scenario) is
nevertheless dispatched to the native sandbox backend, which runs it
to completion with exit 0 — not the claimed exit 1 with the sandbox
never invoked. -/
theorem native_path_runs_invalid_code :
    (service_validate_code baseEnv.reSearch ctypesReq.code ctypesReq.language).1 = false ∧
    execute_code false baseEnv ctypesReq =
      Except.ok ({ stdout := "", stderr := "", exit_code := 0,
                   execution_time := 0, timed_out := false },
                 { validationRun := false, dockerInvoked := false, nativeInvoked := true }) := by
  exact ⟨rfl, rfl⟩

/-- C4 amended: when the Docker backend is selected, every request
whose code fails validation short-circuits with exit 1, the validation
failure message as stderr, and neither sandbox backend invoked. -/
theorem docker_validation_short_circuit (env : ExecEnv) (req : ExecutionRequest) (msg : String)
    (hval : service_validate_code env.reSearch req.code req.language = (false, some msg)) :
    execute_code true env req =
      Except.ok ({ stdout := "", stderr := msg, exit_code := 1,
                   execution_time := 0, timed_out := false },
                 { validationRun := true, dockerInvoked := false, nativeInvoked := false }) := by
  unfold execute_code
  simp only [pyTryIgnore_eq, ok_bind]
  rw [if_neg (by decide : ¬((!true) = true)), hval]
  rfl

/-- C4 witness: the `"import ctypes"` request under Docker, via the
amended theorem; its stderr mentions the blocked construct. -/
theorem docker_validation_short_circuit_witness :
    execute_code true baseEnv ctypesReq =
      Except.ok ({ stdout := "", stderr := ctypesRejectMsg, exit_code := 1,
                   execution_time := 0, timed_out := false },
                 { validationRun := true, dockerInvoked := false, nativeInvoked := false }) ∧
    pyContains ctypesRejectMsg "ctypes" = true := by
  refine ⟨?_, by decide⟩
  exact docker_validation_short_circuit baseEnv ctypesReq ctypesRejectMsg rfl

/-- C5: whenever the Docker client is unavailable, `execute_code`
returns exactly the native-execution result and its effect trace shows
the native backend invoked with `validate_code` never called — neither
the security pre-check nor the language-rule validation runs on the
native path. -/
theorem native_fallback_skips_validation (env : ExecEnv) (req : ExecutionRequest) :
    execute_code false env req =
      Except.ok (native_execution env req,
                 { validationRun := false, dockerInvoked := false, nativeInvoked := true }) := by
  unfold execute_code
  simp only [pyTryIgnore_eq, ok_bind]
  rw [if_pos (by decide : (!false) = true)]
  split <;> rfl

/-- C6: evaluation at the failing input.  Registry with connections
1, 2, 3 on one session, connection 1 failing on send: the broadcast
delivers only to connection 3.  The failed connection is removed
mid-iteration by `send_to_connection`'s own `disconnect`, which
shortens the live list under the iterator, so healthy connection 2 is
skipped (it stays in the registry but never receives the message) —
the loop iterates the live list, not a snapshot. -/
theorem send_to_session_skips_next_after_failure :
    (send_to_session failFirst st3 "s").2 = [3] ∧
    (2 : Nat) ∉ (send_to_session failFirst st3 "s").2 ∧
    ((send_to_session failFirst st3 "s").1).conns "s" = [2, 3] ∧
    ((send_to_session failFirst st3 "s").1).sess 1 = none := by
  refine ⟨?_, ?_, ?_, ?_⟩ <;>
    simp [send_to_session, sendLoop.eq_def, st3, failFirst, cm_disconnect]

/-- C7 counterexample: `connect` never checks whether the connection
is already registered, so the two-operation trace that connects the
same connection to sessions `"a"` and then `"b"` leaves it in both
sessions' active lists at once. -/
theorem connection_two_sessions_counterexample :
    0 ∈ (runOps [.connectOp 0 "a" true, .connectOp 0 "b" true]).conns "a" ∧
    0 ∈ (runOps [.connectOp 0 "a" true, .connectOp 0 "b" true]).conns "b" ∧
    ("a" : String) ≠ "b" := by
  refine ⟨?_, ?_, ?_⟩ <;> decide

/-- C7 amended: in every registry state reachable by a guarded
sequence of connect/disconnect operations — one in which `connect` is
only ever issued for a connection not currently registered, which is
what the transport guarantees for real WebSocket objects — each
connection belongs to at most one session's active list. -/
theorem guarded_connection_unique_session (ops : List ConnOp)
    (hg : guardedFrom initConnState ops = true) (w : Nat) (s1 s2 : String)
    (h1 : w ∈ (runOps ops).conns s1) (h2 : w ∈ (runOps ops).conns s2) :
    s1 = s2 := by
  have hinv := connInv_foldl ops initConnState hg connInv_init
  have e1 := hinv.1 w s1 h1
  have e2 := hinv.1 w s2 h2
  rw [e1] at e2
  exact Option.some.inj e2

/-- C7 witness: a guarded trace (connect to `"a"`, disconnect, connect
to `"b"`) on which the amended theorem applies. -/
theorem guarded_connection_unique_session_witness :
    guardedFrom initConnState
      [.connectOp 0 "a" true, .disconnectOp 0, .connectOp 0 "b" true] = true ∧
    ("b" : String) = "b" := by
  refine ⟨by decide, ?_⟩
  exact guarded_connection_unique_session
    [.connectOp 0 "a" true, .disconnectOp 0, .connectOp 0 "b" true]
    (by decide) 0 "b" "b" (by decide) (by decide)

/-- C8: when the hook type is enabled and the assistant call raises,
`trigger_hook` swallows the error and returns `None`; the tracked
execution ends `failed` with the error message, `completed_at` and
`execution_time` stored; `failed_responses` is incremented; an error
notification is pushed and no reaction notification is; and (given no
execution was mid-flight before) no execution is left `processing`. -/
theorem failed_hook_finalized (st : HookState) (et : HookEventType) (sid : String)
    (data : List (String × String)) (eid : String) (t0 t1 : Nat) (e : String)
    (hen : st.enabled_hooks et = true)
    (hproc : ∀ i ex, st.executions i = some ex → ex.status ≠ HookStatus.processing) :
    (trigger_hook st (.error e) et sid data eid t0 t1).2.1 = none ∧
    (trigger_hook st (.error e) et sid data eid t0 t1).1.executions eid =
      some { id := eid, event := { event_type := et, session_id := sid, data := data },
             status := .failed, ai_response := none, error := some e,
             started_at := t0, completed_at := some t1, execution_time := some (t1 - t0) } ∧
    (trigger_hook st (.error e) et sid data eid t0 t1).1.stats.failed_responses =
      st.stats.failed_responses + 1 ∧
    (trigger_hook st (.error e) et sid data eid t0 t1).1.stats.successful_responses =
      st.stats.successful_responses ∧
    HookOut.errorNotif sid e ∈ (trigger_hook st (.error e) et sid data eid t0 t1).2.2 ∧
    (∀ s r, HookOut.responseNotif s r ∉ (trigger_hook st (.error e) et sid data eid t0 t1).2.2) ∧
    (∀ i ex, (trigger_hook st (.error e) et sid data eid t0 t1).1.executions i = some ex →
      ex.status ≠ HookStatus.processing) := by
  have hcond : ¬((!(st.enabled_hooks et)) = true) := by simp [hen]
  unfold trigger_hook
  rw [if_neg hcond]
  dsimp only
  refine ⟨rfl, ?_, rfl, rfl, ?_, ?_, ?_⟩
  · rw [if_pos rfl]
  · exact List.mem_cons.mpr (Or.inr (List.mem_cons_self _ _))
  · intro s r hmem
    rcases List.mem_cons.mp hmem with h | h
    · exact HookOut.noConfusion h
    · rcases List.mem_cons.mp h with h2 | h2
      · exact HookOut.noConfusion h2
      · exact (List.not_mem_nil _) h2
  · intro i ex hex
    by_cases hi : i = eid
    · rw [if_pos hi] at hex
      have := Option.some.inj hex
      rw [← this]
      intro hst
      exact HookStatus.noConfusion hst
    · rw [if_neg hi] at hex
      exact hproc i ex hex

/-- C8 witness: a fresh manager whose assistant raises `"boom"` on an
`on_run` trigger, via the theorem. -/
theorem failed_hook_finalized_witness :
    (trigger_hook hookSt0 (.error "boom") .on_run "s" [] "e1" 0 1).2.1 = none ∧
    (trigger_hook hookSt0 (.error "boom") .on_run "s" [] "e1" 0 1).1.stats.failed_responses = 1 := by
  have h := failed_hook_finalized hookSt0 .on_run "s" [] "e1" 0 1 "boom" rfl
    (fun i ex hex => Option.noConfusion hex)
  refine ⟨h.1, ?_⟩
  rw [h.2.2.1]
  rfl

/-- C9: when the event type is disabled, `trigger_hook` is a complete
no-op: it returns `None`, leaves the state (executions, statistics,
flags) untouched, and performs no side call at all — in particular
zero assistant calls. -/
theorem disabled_hook_noop (st : HookState) (react : Except String String)
    (et : HookEventType) (sid : String) (data : List (String × String))
    (eid : String) (t0 t1 : Nat) (hdis : st.enabled_hooks et = false) :
    trigger_hook st react et sid data eid t0 t1 = (st, none, []) := by
  unfold trigger_hook
  rw [if_pos (by simp [hdis] : (!(st.enabled_hooks et)) = true)]

/-- C9 witness: `on_run` disabled on an otherwise fresh manager, via
the theorem. -/
theorem disabled_hook_noop_witness :
    trigger_hook hookStDisabled (.ok "hi") .on_run "s" [] "e1" 0 1 =
      (hookStDisabled, none, []) :=
  disabled_hook_noop hookStDisabled (.ok "hi") .on_run "s" [] "e1" 0 1 (by decide)

/-- C10 counterexample: for raw output `" boom "` (no python error
pattern matches it under the given oracle), `parse_error_message` puts
`"boom"` — the `strip()`ped text, not the verbatim raw text — in
`message` and `formatted`. -/
theorem parse_error_fallback_not_verbatim :
    (∀ p ∈ pythonConfig.error_patterns, noMatcher p " boom " = none) ∧
    parse_error_message noMatcher " boom " .python =
      { message := "boom", line := none, type := "Error", formatted := some "boom" } ∧
    ("boom" : String) ≠ " boom " := by
  refine ⟨fun p _ => rfl, rfl, by decide⟩

/-- C10 amended: for every known language and raw output on which none
of the language's error patterns match, `parse_error_message` falls
back to the raw text stripped of leading and trailing whitespace (in
`message` and `formatted`), with `line = None` and `type = "Error"`. -/
theorem parse_error_fallback_strips (matcher : Matcher) (raw : String) (lang : LanguageType)
    (config : LanguageConfig) (hcfg : get_language_config lang = some config)
    (hnone : ∀ p ∈ config.error_patterns, matcher p raw = none) :
    parse_error_message matcher raw lang =
      { message := pyStrip raw, line := none, type := "Error",
        formatted := some (pyStrip raw) } := by
  have main : ∀ ps : List ErrorPattern, (∀ p ∈ ps, matcher p raw = none) →
      parsePatterns matcher raw ps =
        { message := pyStrip raw, line := none, type := "Error",
          formatted := some (pyStrip raw) } := by
    intro ps
    induction ps with
    | nil => intro _; rfl
    | cons p ps ih =>
      intro hall
      have hp := hall p (List.mem_cons_self p ps)
      simp only [parsePatterns, hp]
      exact ih (fun q hq => hall q (List.mem_cons.mpr (Or.inr hq)))
  unfold parse_error_message
  rw [hcfg]
  exact main config.error_patterns hnone

/-- C10 witness: python, raw output `" boom "`, an oracle under which
no pattern matches, via the amended theorem. -/
theorem parse_error_fallback_strips_witness :
    parse_error_message noMatcher " boom " LanguageType.python =
      { message := pyStrip " boom ", line := none, type := "Error",
        formatted := some (pyStrip " boom ") } ∧
    pyStrip " boom " = "boom" := by
  refine ⟨?_, by decide⟩
  exact parse_error_fallback_strips noMatcher " boom " .python pythonConfig rfl
    (fun p _ => rfl)

end GhostIDE
